import Mathlib

/-!
Verification of `kerykeion/charts/charts_utils.py`.

Numeric model: Python float values are modelled as exact rationals (ℚ) for the
arithmetic, comparison, truncation and rounding operations (all exact in the
model), and as real numbers (ℝ) where the code calls `math.cos` / `math.sin`.
SVG strings are modelled as structured fragment lists carrying exactly the data
the code interpolates into the markup.
-/

/-- Python `int()` applied to a float: truncation toward zero. -/
def pyInt (q : ℚ) : ℤ :=
  if q < 0 then ⌈q⌉ else ⌊q⌋

/-- Python 3 `round()` with no digits argument: round half to even, returns an int. -/
def pyRound (q : ℚ) : ℤ :=
  let f := ⌊q⌋
  let r := q - (f : ℚ)
  if r < 1/2 then f
  else if 1/2 < r then f + 1
  else if Even f then f else f + 1

/-- `sliceToX(slice, radius, offset)` from charts_utils.py lines 68-90:
`plus = (math.pi * offset) / 180`, `radial = ((math.pi / 6) * slice) + plus`,
returns `radius * (math.cos(radial) + 1)`. -/
noncomputable def sliceToX (slice : ℝ) (radius : ℝ) (offset : ℝ) : ℝ :=
  let plus := (Real.pi * offset) / 180
  let radial := ((Real.pi / 6) * slice) + plus
  radius * (Real.cos radial + 1)

/-- `sliceToY(slice, r, offset)` from charts_utils.py lines 93-113:
`plus = (math.pi * offset) / 180`, `radial = ((math.pi / 6) * slice) + plus`,
returns `r * ((math.sin(radial) / -1) + 1)`. -/
noncomputable def sliceToY (slice : ℝ) (r : ℝ) (offset : ℝ) : ℝ :=
  let plus := (Real.pi * offset) / 180
  let radial := ((Real.pi / 6) * slice) + plus
  r * ((Real.sin radial / -1) + 1)

/-- `degreeDiff(a, b)` from charts_utils.py lines 25-43, with the two sequential
`if` statements and the final fold kept exactly as written:
`out = 0.0; if a > b: out = a - b; if a < b: out = b - a;
if out > 180.0: out = 360.0 - out; return out`. -/
def degreeDiff (a b : ℚ) : ℚ :=
  let out0 : ℚ := 0
  let out1 := if a > b then a - b else out0
  let out2 := if a < b then b - a else out1
  if out2 > 180 then 360 - out2 else out2

/-- C1: for every real slice, radius and offset, `sliceToX` equals
`radius * (cos (slice*π/6 + offset*π/180) + 1)` and `sliceToY` equals
`radius * (1 - sin (slice*π/6 + offset*π/180))`; in particular
`sliceToX 0 r 0 = 2r` and `sliceToY 0 r 0 = r`. -/
theorem sliceToX_sliceToY_formula (slice radius offset : ℝ) :
    sliceToX slice radius offset =
      radius * (Real.cos (slice * (Real.pi / 6) + offset * (Real.pi / 180)) + 1) ∧
    sliceToY slice radius offset =
      radius * (1 - Real.sin (slice * (Real.pi / 6) + offset * (Real.pi / 180))) ∧
    sliceToX 0 radius 0 = 2 * radius ∧
    sliceToY 0 radius 0 = radius := by
  have harg : ((Real.pi / 6) * slice) + (Real.pi * offset) / 180 =
      slice * (Real.pi / 6) + offset * (Real.pi / 180) := by ring
  refine ⟨?_, ?_, ?_, ?_⟩
  · simp only [sliceToX, harg]
  · simp only [sliceToY, harg]; ring
  · simp only [sliceToX, mul_zero, zero_mul, zero_div, add_zero, Real.cos_zero]
    ring
  · simp only [sliceToY, mul_zero, zero_mul, zero_div, add_zero, Real.sin_zero]
    ring

/-- C8: `sliceToX` and `sliceToY` are periodic with period 12 in the slice
argument and period 360 in the offset argument. -/
theorem sliceToX_sliceToY_periodic (slice r offset : ℝ) :
    sliceToX (slice + 12) r offset = sliceToX slice r offset ∧
    sliceToY (slice + 12) r offset = sliceToY slice r offset ∧
    sliceToX slice r (offset + 360) = sliceToX slice r offset ∧
    sliceToY slice r (offset + 360) = sliceToY slice r offset := by
  have hs : ((Real.pi / 6) * (slice + 12)) + (Real.pi * offset) / 180 =
      (((Real.pi / 6) * slice) + (Real.pi * offset) / 180) + 2 * Real.pi := by ring
  have ho : ((Real.pi / 6) * slice) + (Real.pi * (offset + 360)) / 180 =
      (((Real.pi / 6) * slice) + (Real.pi * offset) / 180) + 2 * Real.pi := by ring
  refine ⟨?_, ?_, ?_, ?_⟩
  · simp only [sliceToX, hs, Real.cos_add_two_pi]
  · simp only [sliceToY, hs, Real.sin_add_two_pi]
  · simp only [sliceToX, ho, Real.cos_add_two_pi]
  · simp only [sliceToY, ho, Real.sin_add_two_pi]

/-- Closed form of `degreeDiff`: the two sequential `if` statements compute
`|a - b|`, and the final fold subtracts it from 360 when it exceeds 180. -/
theorem degreeDiff_eq_fold (a b : ℚ) :
    degreeDiff a b = if 180 < |a - b| then 360 - |a - b| else |a - b| := by
  have key : (if a < b then b - a else if a > b then a - b else (0 : ℚ)) = |a - b| := by
    rcases lt_trichotomy a b with h | h | h
    · rw [if_pos h, abs_sub_comm, abs_of_pos (sub_pos.mpr h)]
    · subst h; simp
    · rw [if_neg (not_lt.mpr h.le), if_pos h, abs_of_pos (sub_pos.mpr h)]
  simp only [degreeDiff, gt_iff_lt] at key ⊢
  rw [key]

/-- C2 counterexample: at `a = 1000`, `b = 0` the result of `degreeDiff` is
`-640`, which is not between 0 and 180: the claimed range fails for arbitrary
real inputs (the fold subtracts from 360 only once). -/
theorem degreeDiff_range_counterexample :
    degreeDiff 1000 0 = -640 ∧ ¬ (0 ≤ degreeDiff 1000 0 ∧ degreeDiff 1000 0 ≤ 180) := by
  have h : degreeDiff 1000 0 = -640 := by
    rw [degreeDiff_eq_fold]
    norm_num
  refine ⟨h, ?_⟩
  rw [h]
  norm_num

/-- C2 (amended): `degreeDiff` is symmetric for all inputs, and whenever the
two inputs are within 360 of each other (in particular for degrees in
`[0, 360]`) the result lies between 0 and 180 inclusive. -/
theorem degreeDiff_symm_and_range (a b : ℚ) :
    degreeDiff a b = degreeDiff b a ∧
    (|a - b| ≤ 360 → 0 ≤ degreeDiff a b ∧ degreeDiff a b ≤ 180) := by
  constructor
  · rw [degreeDiff_eq_fold, degreeDiff_eq_fold, abs_sub_comm]
  · intro habs
    rw [degreeDiff_eq_fold]
    have h0 : 0 ≤ |a - b| := abs_nonneg _
    by_cases h : 180 < |a - b|
    · rw [if_pos h]
      constructor <;> linarith
    · rw [if_neg h]
      constructor <;> linarith [not_lt.mp h]

/-- C2 witness: at `a = 10`, `b = 350` the inputs are within 360 of each other
and the symmetric result lies in `[0, 180]`. -/
theorem degreeDiff_symm_and_range_witness :
    |(10 : ℚ) - 350| ≤ 360 ∧
    (degreeDiff 10 350 = degreeDiff 350 10 ∧
     0 ≤ degreeDiff 10 350 ∧ degreeDiff 10 350 ≤ 180) :=
  ⟨by norm_num,
   ⟨(degreeDiff_symm_and_range 10 350).1,
    (degreeDiff_symm_and_range 10 350).2 (by norm_num)⟩⟩

/-- One text line of the elements grid drawn by `draw_elements_percentages`:
the `y` attribute, fill color, label and rounded percentage that the code
interpolates into one `text` element. -/
structure ElementLine where
  y : ℤ
  fill : String
  label : String
  percentage : ℤ
deriving DecidableEq

/-- `draw_elements_percentages` from charts_utils.py lines 248-287:
`total` is the sum of the four point values and each percentage is
`int(round(100 * points / total))`; Python raises `ZeroDivisionError` when
`total` is zero (there is no guard in the code), modelled as `Except.error`. -/
def draw_elements_percentages (fire_label : String) (fire_points : ℚ)
    (earth_label : String) (earth_points : ℚ)
    (air_label : String) (air_points : ℚ)
    (water_label : String) (water_points : ℚ) : Except String (List ElementLine) :=
  let total := fire_points + earth_points + air_points + water_points
  if total = 0 then Except.error "ZeroDivisionError"
  else
    let fire_percentage := pyRound (100 * fire_points / total)
    let earth_percentage := pyRound (100 * earth_points / total)
    let air_percentage := pyRound (100 * air_points / total)
    let water_percentage := pyRound (100 * water_points / total)
    Except.ok
      [⟨0, "#ff6600", fire_label, fire_percentage⟩,
       ⟨12, "#6a2d04", earth_label, earth_percentage⟩,
       ⟨24, "#6f76d1", air_label, air_percentage⟩,
       ⟨36, "#630e73", water_label, water_percentage⟩]

/-- C3 counterexample: with totals `(0, 0, 0, 0)` the code raises
`ZeroDivisionError` (`100 * 0 / 0`); it does not produce a guarded `0%`
fallback for the four labels. -/
theorem draw_elements_percentages_zero_counterexample :
    draw_elements_percentages "Fire" 0 "Earth" 0 "Air" 0 "Water" 0 =
      Except.error "ZeroDivisionError" := by
  simp [draw_elements_percentages]

/-- C3 (amended): with totals `(1, 1, 1, 1)` every label is rendered with 25%;
with totals `(0, 0, 0, 0)` the function raises a division fault
(`ZeroDivisionError`) instead of producing a `0%` fallback. -/
theorem draw_elements_percentages_quarter_and_zero
    (fl el al wl : String) :
    draw_elements_percentages fl 1 el 1 al 1 wl 1 =
      Except.ok
        [⟨0, "#ff6600", fl, 25⟩, ⟨12, "#6a2d04", el, 25⟩,
         ⟨24, "#6f76d1", al, 25⟩, ⟨36, "#630e73", wl, 25⟩] ∧
    draw_elements_percentages fl 0 el 0 al 0 wl 0 =
      Except.error "ZeroDivisionError" := by
  constructor
  · have h25 : pyRound ((25 : ℚ)) = 25 := by
      norm_num [pyRound]
    simp only [draw_elements_percentages, mul_one]
    norm_num [h25]
  · simp [draw_elements_percentages]

/-- Structured form of the sexagesimal string produced by
`convert_decimal_to_degree_string` (the `&#176;` / `&#39;` / `&#34;` entity
glue and 2-digit zero padding are abstracted; the numeric fields are exactly
the interpolated values). -/
inductive DegreeString
  | dms (a b c : ℤ)
  | dm (a b : ℤ)
  | d (a : ℤ)
deriving DecidableEq

/-- `convert_decimal_to_degree_string` from charts_utils.py lines 290-321:
`a = int(dec)`, `a_new = (dec - a) * 60`, `b_rounded = int(round(a_new))`,
`b = int(a_new)`, `c = int(round((a_new - b) * 60))`; type `"3"` yields
`a°b'c"`, `"2"` yields `a°b_rounded'`, `"1"` yields `a°`, anything else
raises `KerykeionException`. -/
def convert_decimal_to_degree_string (dec : ℚ) (type : String) : Except String DegreeString :=
  let a := pyInt dec
  let a_new := (dec - (a : ℚ)) * 60
  let b_rounded := pyRound a_new
  let b := pyInt a_new
  let c := pyRound ((a_new - (b : ℚ)) * 60)
  if type = "3" then Except.ok (DegreeString.dms a b c)
  else if type = "2" then Except.ok (DegreeString.dm a b_rounded)
  else if type = "1" then Except.ok (DegreeString.d a)
  else Except.error ("Wrong type: " ++ type ++ ", it must be 1, 2 or 3.")

/-- C4: for every decimal input, precision `"1"` returns a degree-only string,
`"2"` a degree/minute string, `"3"` a degree/minute/second string, and any
precision outside `{1, 2, 3}` fails with the invalid-format error. -/
theorem convert_decimal_to_degree_string_precision (dec : ℚ) (t : String)
    (ht : t ≠ "1" ∧ t ≠ "2" ∧ t ≠ "3") :
    (∃ a b c, convert_decimal_to_degree_string dec "3" = Except.ok (DegreeString.dms a b c)) ∧
    (∃ a b, convert_decimal_to_degree_string dec "2" = Except.ok (DegreeString.dm a b)) ∧
    (∃ a, convert_decimal_to_degree_string dec "1" = Except.ok (DegreeString.d a)) ∧
    convert_decimal_to_degree_string dec t =
      Except.error ("Wrong type: " ++ t ++ ", it must be 1, 2 or 3.") := by
  refine ⟨⟨_, _, _, rfl⟩, ⟨_, _, rfl⟩, ⟨_, rfl⟩, ?_⟩
  simp [convert_decimal_to_degree_string, ht.1, ht.2.1, ht.2.2]

/-- C4 witness: at `dec = 1/2` and precision `"4"` the hypothesis holds and the
function returns the invalid-format error while `"1"`, `"2"`, `"3"` succeed. -/
theorem convert_decimal_to_degree_string_precision_witness :
    (("4" : String) ≠ "1" ∧ ("4" : String) ≠ "2" ∧ ("4" : String) ≠ "3") ∧
    ((∃ a b c, convert_decimal_to_degree_string (1/2) "3" = Except.ok (DegreeString.dms a b c)) ∧
     (∃ a b, convert_decimal_to_degree_string (1/2) "2" = Except.ok (DegreeString.dm a b)) ∧
     (∃ a, convert_decimal_to_degree_string (1/2) "1" = Except.ok (DegreeString.d a)) ∧
     convert_decimal_to_degree_string (1/2) "4" =
       Except.error ("Wrong type: " ++ "4" ++ ", it must be 1, 2 or 3.")) :=
  ⟨by simp,
   convert_decimal_to_degree_string_precision (1/2) "4" (by simp)⟩

/-- Structured form of the `D°M'S" X` string produced by the latitude /
longitude coordinate formatters: the degree, minute and second numbers and the
hemisphere label interpolated into the string. -/
structure CoordString where
  deg : ℤ
  min : ℤ
  sec : ℤ
  label : String
deriving DecidableEq

/-- `convert_latitude_coordinate_to_string` from charts_utils.py lines
164-185: a negative coordinate selects the south label and is replaced by its
absolute value, then `deg = int(coord)`, `min = int((coord - deg) * 60)`,
`sec = int(round(((coord - deg) * 60 - min) * 60))`. -/
def convert_latitude_coordinate_to_string (coord : ℚ)
    (north_label south_label : String) : CoordString :=
  let sign := if coord < 0 then south_label else north_label
  let coord2 := if coord < 0 then |coord| else coord
  let deg := pyInt coord2
  let min := pyInt ((coord2 - (deg : ℚ)) * 60)
  let sec := pyRound (((coord2 - (deg : ℚ)) * 60 - (min : ℚ)) * 60)
  ⟨deg, min, sec, sign⟩

/-- `convert_longitude_coordinate_to_string` from charts_utils.py lines
188-209: identical arithmetic with east / west labels. -/
def convert_longitude_coordinate_to_string (coord : ℚ)
    (east_label west_label : String) : CoordString :=
  let sign := if coord < 0 then west_label else east_label
  let coord2 := if coord < 0 then |coord| else coord
  let deg := pyInt coord2
  let min := pyInt ((coord2 - (deg : ℚ)) * 60)
  let sec := pyRound (((coord2 - (deg : ℚ)) * 60 - (min : ℚ)) * 60)
  ⟨deg, min, sec, sign⟩

/-- C10: at `coord = 10 + 4799/36000` (just below 10°8') the latitude
formatter renders `10°7'60"` — a seconds component equal to 60 with no carry
into the minutes component, because seconds are rounded independently of the
truncated minutes — and the longitude formatter does the same. -/
theorem coordinate_to_string_sixty_seconds :
    convert_latitude_coordinate_to_string (364799/36000) "N" "S" = ⟨10, 7, 60, "N"⟩ ∧
    convert_longitude_coordinate_to_string (364799/36000) "E" "W" = ⟨10, 7, 60, "E"⟩ := by
  have hc : ¬((364799/36000 : ℚ) < 0) := by norm_num
  have hdeg : pyInt (364799/36000 : ℚ) = 10 := by norm_num [pyInt]
  have hmin : pyInt (4799/600 : ℚ) = 7 := by norm_num [pyInt]
  have hsec : pyRound (599/10 : ℚ) = 60 := by norm_num [pyRound]
  constructor
  · simp only [convert_latitude_coordinate_to_string, if_neg hc, hdeg]
    norm_num [hmin, hsec]
  · simp only [convert_longitude_coordinate_to_string, if_neg hc, hdeg]
    norm_num [hmin, hsec]

/-- The tick offset computed in the loop bodies of
`draw_transit_ring_degree_steps` (lines 336-341) and `draw_degree_ring`
(lines 365-370): `offset = float(i * 5) - seventh_house_degree_ut`, then
`if offset < 0: offset = offset + 360.0 elif offset > 360:
offset = offset - 360.0`. -/
def tick_offset (i : ℕ) (seventh_house_degree_ut : ℚ) : ℚ :=
  let offset := ((i * 5 : ℕ) : ℚ) - seventh_house_degree_ut
  if offset < 0 then offset + 360
  else if offset > 360 then offset - 360
  else offset

/-- One `line` element of a degree-tick ring: the loop's normalized offset
(the value handed to `sliceToX` / `sliceToY`), the four projected
coordinates and the stroke color. -/
structure TickLine where
  offset : ℚ
  x1 : ℝ
  y1 : ℝ
  x2 : ℝ
  y2 : ℝ
  stroke : String

/-- `draw_transit_ring_degree_steps(r, seventh_house_degree_ut)` from
charts_utils.py lines 324-349: 72 ticks, each at `tick_offset`, with
`x1 = sliceToX(0, r, offset)`, `y1 = sliceToY(0, r, offset)`,
`x2 = sliceToX(0, r + 2, offset) - 2`, `y2 = sliceToY(0, r + 2, offset) - 2`
and a fixed `#F00` stroke. -/
noncomputable def draw_transit_ring_degree_steps (r : ℚ)
    (seventh_house_degree_ut : ℚ) : List TickLine :=
  (List.range 72).map (fun i =>
    let offset := tick_offset i seventh_house_degree_ut
    { offset := offset
      x1 := sliceToX 0 (r : ℝ) (offset : ℝ)
      y1 := sliceToY 0 (r : ℝ) (offset : ℝ)
      x2 := sliceToX 0 ((r : ℝ) + 2) (offset : ℝ) - 2
      y2 := sliceToY 0 ((r : ℝ) + 2) (offset : ℝ) - 2
      stroke := "#F00" })

/-- `draw_degree_ring(r, c1, seventh_house_degree_ut, stroke_color)` from
charts_utils.py lines 352-379: 72 ticks at the same `tick_offset`, projected
at radius `r - c1` and shifted by `c1` (`x1 = sliceToX(0, r - c1, offset) + c1`
etc.), stroked with the caller's color. -/
noncomputable def draw_degree_ring (r : ℚ) (c1 : ℚ)
    (seventh_house_degree_ut : ℚ) (stroke_color : String) : List TickLine :=
  (List.range 72).map (fun i =>
    let offset := tick_offset i seventh_house_degree_ut
    { offset := offset
      x1 := sliceToX 0 ((r : ℝ) - (c1 : ℝ)) (offset : ℝ) + (c1 : ℝ)
      y1 := sliceToY 0 ((r : ℝ) - (c1 : ℝ)) (offset : ℝ) + (c1 : ℝ)
      x2 := sliceToX 0 ((r : ℝ) + 2 - (c1 : ℝ)) (offset : ℝ) - 2 + (c1 : ℝ)
      y2 := sliceToY 0 ((r : ℝ) + 2 - (c1 : ℝ)) (offset : ℝ) - 2 + (c1 : ℝ)
      stroke := stroke_color })

/-- For a reference degree in `[0, 360]` and `i < 72`, the normalized tick
offset is the raw value `i*5 - s` corrected by at most one addition or
subtraction of 360, and lies in `[0, 360]`. -/
theorem tick_offset_bounds (i : ℕ) (hi : i < 72) (s : ℚ)
    (h0 : 0 ≤ s) (h1 : s ≤ 360) :
    (tick_offset i s = ((i * 5 : ℕ) : ℚ) - s ∨
     tick_offset i s = ((i * 5 : ℕ) : ℚ) - s + 360 ∨
     tick_offset i s = ((i * 5 : ℕ) : ℚ) - s - 360) ∧
    0 ≤ tick_offset i s ∧ tick_offset i s ≤ 360 := by
  have hi71 : (i : ℚ) ≤ 71 := by exact_mod_cast Nat.lt_succ_iff.mp hi
  have hcast : ((i * 5 : ℕ) : ℚ) = (i : ℚ) * 5 := by push_cast; ring
  have hlo : -360 ≤ ((i * 5 : ℕ) : ℚ) - s := by
    rw [hcast]
    have : (0 : ℚ) ≤ (i : ℚ) * 5 := by positivity
    linarith
  have hhi : ((i * 5 : ℕ) : ℚ) - s ≤ 355 := by
    rw [hcast]
    linarith
  simp only [tick_offset, gt_iff_lt]
  split_ifs with hneg hbig
  · exact ⟨Or.inr (Or.inl rfl), by linarith, by linarith⟩
  · exfalso; linarith
  · exact ⟨Or.inl rfl, not_lt.mp hneg, by linarith⟩

/-- C5: in `draw_degree_ring` and `draw_transit_ring_degree_steps` each of the
72 tick offsets is `i*5 - referenceCuspDegree` corrected by at most one
addition or subtraction of 360, and for every reference degree in `[0, 360]`
every offset passed to `sliceToX` / `sliceToY` lies in `[0, 360]`. -/
theorem degree_ring_tick_offsets_in_range (r c1 s : ℚ) (stroke : String)
    (h0 : 0 ≤ s) (h1 : s ≤ 360) :
    (draw_transit_ring_degree_steps r s).length = 72 ∧
    (draw_degree_ring r c1 s stroke).length = 72 ∧
    (∀ t ∈ draw_transit_ring_degree_steps r s,
      (∃ i < 72, t.offset = tick_offset i s ∧
        (t.offset = ((i * 5 : ℕ) : ℚ) - s ∨
         t.offset = ((i * 5 : ℕ) : ℚ) - s + 360 ∨
         t.offset = ((i * 5 : ℕ) : ℚ) - s - 360)) ∧
      0 ≤ t.offset ∧ t.offset ≤ 360) ∧
    (∀ t ∈ draw_degree_ring r c1 s stroke,
      (∃ i < 72, t.offset = tick_offset i s ∧
        (t.offset = ((i * 5 : ℕ) : ℚ) - s ∨
         t.offset = ((i * 5 : ℕ) : ℚ) - s + 360 ∨
         t.offset = ((i * 5 : ℕ) : ℚ) - s - 360)) ∧
      0 ≤ t.offset ∧ t.offset ≤ 360) := by
  refine ⟨by simp [draw_transit_ring_degree_steps], by simp [draw_degree_ring], ?_, ?_⟩
  · intro t ht
    simp only [draw_transit_ring_degree_steps, List.mem_map, List.mem_range] at ht
    obtain ⟨i, hi, rfl⟩ := ht
    obtain ⟨hshape, hge, hle⟩ := tick_offset_bounds i hi s h0 h1
    exact ⟨⟨i, hi, rfl, hshape⟩, hge, hle⟩
  · intro t ht
    simp only [draw_degree_ring, List.mem_map, List.mem_range] at ht
    obtain ⟨i, hi, rfl⟩ := ht
    obtain ⟨hshape, hge, hle⟩ := tick_offset_bounds i hi s h0 h1
    exact ⟨⟨i, hi, rfl, hshape⟩, hge, hle⟩

/-- C5 witness: at reference degree 100 (with `r = 240`, `c1 = 36`) the
hypotheses hold and all 72 tick offsets of both rings lie in `[0, 360]`. -/
theorem degree_ring_tick_offsets_in_range_witness :
    ((0 : ℚ) ≤ 100 ∧ (100 : ℚ) ≤ 360) ∧
    ((draw_transit_ring_degree_steps 240 100).length = 72 ∧
     (draw_degree_ring 240 36 100 "#F00F").length = 72 ∧
     (∀ t ∈ draw_transit_ring_degree_steps 240 100,
       (∃ i < 72, t.offset = tick_offset i 100 ∧
         (t.offset = ((i * 5 : ℕ) : ℚ) - 100 ∨
          t.offset = ((i * 5 : ℕ) : ℚ) - 100 + 360 ∨
          t.offset = ((i * 5 : ℕ) : ℚ) - 100 - 360)) ∧
       0 ≤ t.offset ∧ t.offset ≤ 360) ∧
     (∀ t ∈ draw_degree_ring 240 36 100 "#F00F",
       (∃ i < 72, t.offset = tick_offset i 100 ∧
         (t.offset = ((i * 5 : ℕ) : ℚ) - 100 ∨
          t.offset = ((i * 5 : ℕ) : ℚ) - 100 + 360 ∨
          t.offset = ((i * 5 : ℕ) : ℚ) - 100 - 360)) ∧
       0 ≤ t.offset ∧ t.offset ≤ 360)) :=
  ⟨⟨by norm_num, by norm_num⟩,
   degree_ring_tick_offsets_in_range 240 36 100 "#F00F" (by norm_num) (by norm_num)⟩

/-- The aspect dictionary consumed by `draw_aspect_line`: the keys `p1_name`,
`p1_abs_pos`, `p2_name`, `p2_abs_pos` it reads. -/
structure AspectLineDict where
  p1_name : String
  p1_abs_pos : ℚ
  p2_name : String
  p2_abs_pos : ℚ

/-- The data `draw_aspect_line` interpolates into its markup: the `kr:`
metadata attributes of the `g` wrapper and the `line` endpoint coordinates
and stroke color. -/
structure AspectLineOut where
  kr_to : String
  kr_tooriginaldegrees : ℚ
  kr_from : String
  kr_fromoriginaldegrees : ℚ
  x1 : ℝ
  y1 : ℝ
  x2 : ℝ
  y2 : ℝ
  color : String

/-- `draw_aspect_line(r, ar, aspect_dict, color, seventh_house_degree_ut)`
from charts_utils.py lines 212-245:
`first_offset = (int(seventh_house_degree_ut) / -1) + int(aspect_dict["p1_abs_pos"])`,
`x1 = sliceToX(0, ar, first_offset) + (r - ar)` and so on, while the `kr:`
attributes carry the untruncated `p1_abs_pos` / `p2_abs_pos` values. -/
noncomputable def draw_aspect_line (r ar : ℚ) (aspect_dict : AspectLineDict)
    (color : String) (seventh_house_degree_ut : ℚ) : AspectLineOut :=
  let first_offset : ℚ := ((pyInt seventh_house_degree_ut : ℚ) / -1) + (pyInt aspect_dict.p1_abs_pos : ℚ)
  let second_offset : ℚ := ((pyInt seventh_house_degree_ut : ℚ) / -1) + (pyInt aspect_dict.p2_abs_pos : ℚ)
  { kr_to := aspect_dict.p1_name
    kr_tooriginaldegrees := aspect_dict.p1_abs_pos
    kr_from := aspect_dict.p2_name
    kr_fromoriginaldegrees := aspect_dict.p2_abs_pos
    x1 := sliceToX 0 (ar : ℝ) (first_offset : ℝ) + ((r : ℝ) - (ar : ℝ))
    y1 := sliceToY 0 (ar : ℝ) (first_offset : ℝ) + ((r : ℝ) - (ar : ℝ))
    x2 := sliceToX 0 (ar : ℝ) (second_offset : ℝ) + ((r : ℝ) - (ar : ℝ))
    y2 := sliceToY 0 (ar : ℝ) (second_offset : ℝ) + ((r : ℝ) - (ar : ℝ))
    color := color }

/-- C9: the line endpoints drawn by `draw_aspect_line` depend only on the
toward-zero truncated integer parts of the seventh-house degree and the two
absolute positions — two calls with the same `r`, `ar` whose degree inputs
truncate alike draw the identical line — while the untruncated positions
flow only into the `kr:` metadata attributes. -/
theorem draw_aspect_line_depends_on_truncation (r ar : ℚ) (color : String)
    (d1 d2 : AspectLineDict) (s1 s2 : ℚ)
    (hs : pyInt s1 = pyInt s2)
    (hp1 : pyInt d1.p1_abs_pos = pyInt d2.p1_abs_pos)
    (hp2 : pyInt d1.p2_abs_pos = pyInt d2.p2_abs_pos) :
    ((draw_aspect_line r ar d1 color s1).x1 = (draw_aspect_line r ar d2 color s2).x1 ∧
     (draw_aspect_line r ar d1 color s1).y1 = (draw_aspect_line r ar d2 color s2).y1 ∧
     (draw_aspect_line r ar d1 color s1).x2 = (draw_aspect_line r ar d2 color s2).x2 ∧
     (draw_aspect_line r ar d1 color s1).y2 = (draw_aspect_line r ar d2 color s2).y2) ∧
    (draw_aspect_line r ar d1 color s1).kr_tooriginaldegrees = d1.p1_abs_pos ∧
    (draw_aspect_line r ar d1 color s1).kr_fromoriginaldegrees = d1.p2_abs_pos := by
  refine ⟨⟨?_, ?_, ?_, ?_⟩, rfl, rfl⟩ <;>
    simp only [draw_aspect_line, hs, hp1, hp2]

/-- C9 witness: `10.3` / `10.7` for the reference degree, `100.2` / `100.8`
and `200.1` / `200.9` for the two positions truncate to the same integers,
so the two calls draw the same line. -/
theorem draw_aspect_line_depends_on_truncation_witness :
    (pyInt (103/10) = pyInt (107/10) ∧
     pyInt (501/5) = pyInt (504/5) ∧
     pyInt (2001/10) = pyInt (2009/10)) ∧
    (((draw_aspect_line 240 160 ⟨"Sun", 501/5, "Moon", 2001/10⟩ "#fff" (103/10)).x1 =
        (draw_aspect_line 240 160 ⟨"Sun", 504/5, "Moon", 2009/10⟩ "#fff" (107/10)).x1 ∧
      (draw_aspect_line 240 160 ⟨"Sun", 501/5, "Moon", 2001/10⟩ "#fff" (103/10)).y1 =
        (draw_aspect_line 240 160 ⟨"Sun", 504/5, "Moon", 2009/10⟩ "#fff" (107/10)).y1 ∧
      (draw_aspect_line 240 160 ⟨"Sun", 501/5, "Moon", 2001/10⟩ "#fff" (103/10)).x2 =
        (draw_aspect_line 240 160 ⟨"Sun", 504/5, "Moon", 2009/10⟩ "#fff" (107/10)).x2 ∧
      (draw_aspect_line 240 160 ⟨"Sun", 501/5, "Moon", 2001/10⟩ "#fff" (103/10)).y2 =
        (draw_aspect_line 240 160 ⟨"Sun", 504/5, "Moon", 2009/10⟩ "#fff" (107/10)).y2) ∧
     (draw_aspect_line 240 160 ⟨"Sun", 501/5, "Moon", 2001/10⟩ "#fff" (103/10)).kr_tooriginaldegrees = 501/5 ∧
     (draw_aspect_line 240 160 ⟨"Sun", 501/5, "Moon", 2001/10⟩ "#fff" (103/10)).kr_fromoriginaldegrees = 2001/10) :=
  ⟨⟨by norm_num [pyInt], by norm_num [pyInt], by norm_num [pyInt]⟩,
   draw_aspect_line_depends_on_truncation 240 160 "#fff"
     ⟨"Sun", 501/5, "Moon", 2001/10⟩ ⟨"Sun", 504/5, "Moon", 2009/10⟩
     (103/10) (107/10)
     (by norm_num [pyInt]) (by norm_num [pyInt]) (by norm_num [pyInt])⟩

/-- A planet as read by `draw_aspect_grid`: the `is_active` attribute and the
`name` / `id` keys. -/
structure Planet where
  id : ℤ
  name : String
  is_active : Bool
deriving DecidableEq

/-- An aspect as read by `draw_aspect_grid`: the `p1` / `p2` planet ids and
the `aspect_degrees` used to pick the `#orb...` glyph. -/
structure GridAspect where
  p1 : ℤ
  p2 : ℤ
  aspect_degrees : ℤ
deriving DecidableEq

/-- The cell size constant `box = 14` of `draw_aspect_grid`. -/
def gridBox : ℚ := 14

/-- One markup fragment emitted by `draw_aspect_grid`: the planet-row `rect`,
the planet glyph `use`, the orb-cell `rect`, or the matched-aspect glyph
`use` that references `#orb{aspect_degrees}` (coordinates as interpolated). -/
inductive GridCell
  | planetRect (x y : ℚ)
  | planetGlyph (name : String) (x y : ℚ)
  | orbRect (x y : ℚ)
  | aspectGlyph (aspect_degrees : ℤ) (x y : ℚ)
deriving DecidableEq

/-- The inner loop of `draw_aspect_grid` (lines 484-491): for each following
planet `b` emit the orb cell `rect` at `(xorb, yorb)`, advance
`xorb += box`, and for every aspect matching the unordered pair `(a, b)`
emit a glyph `use` at `(xorb - box + 1, yorb + 1)` referencing
`#orb{aspect_degrees}`. -/
def draw_aspect_grid_inner (aspects_list : List GridAspect) (a : Planet) :
    List Planet → ℚ → ℚ → List GridCell
  | [], _, _ => []
  | b :: rest, xorb, yorb =>
    let xorb2 := xorb + gridBox
    (GridCell.orbRect xorb yorb ::
      (aspects_list.filter (fun aspect =>
          (aspect.p1 == a.id && aspect.p2 == b.id) ||
          (aspect.p1 == b.id && aspect.p2 == a.id))).map
        (fun aspect =>
          GridCell.aspectGlyph aspect.aspect_degrees (xorb2 - gridBox + 1) (yorb + 1)))
      ++ draw_aspect_grid_inner aspects_list a rest xorb2 yorb

/-- The outer loop of `draw_aspect_grid` (lines 473-491): for each planet of
the reversed active list emit its row `rect` at `(xindent, yindent)` and its
glyph `use` at `((xindent+2)*2.5, (yindent+1)*2.5)`, advance
`xindent += box`, `yindent -= box`, and run the inner loop over the
remaining planets starting at `xorb = xindent`, `yorb = yindent + box`. -/
def draw_aspect_grid_aux (aspects_list : List GridAspect) :
    List Planet → ℚ → ℚ → List GridCell
  | [], _, _ => []
  | a :: rest, xindent, yindent =>
    let xindent2 := xindent + gridBox
    let yindent2 := yindent - gridBox
    let xorb := xindent2
    let yorb := yindent2 + gridBox
    (GridCell.planetRect xindent yindent ::
      GridCell.planetGlyph a.name ((xindent + 2) * (5/2)) ((yindent + 1) * (5/2)) ::
      draw_aspect_grid_inner aspects_list a rest xorb yorb)
      ++ draw_aspect_grid_aux aspects_list rest xindent2 yindent2

/-- `draw_aspect_grid(stroke_color, available_planets_list, aspects_list)`
from charts_utils.py lines 448-493: filter the active planets, reverse them,
and lay out the grid starting at `xindent = 380`, `yindent = 468`
(the stroke color flows only into the inline style string). -/
def draw_aspect_grid (stroke_color : String)
    (available_planets_list : List Planet)
    (aspects_list : List GridAspect) : List GridCell :=
  let actual_planets := available_planets_list.filter (fun planet => planet.is_active)
  let first_iteration_revers_planets := actual_planets.reverse
  draw_aspect_grid_aux aspects_list first_iteration_revers_planets 380 468

/-- The planet name referenced by a planet-glyph cell, if any. -/
def cellPlanetName : GridCell → Option String
  | GridCell.planetRect _ _ => none
  | GridCell.planetGlyph n _ _ => some n
  | GridCell.orbRect _ _ => none
  | GridCell.aspectGlyph _ _ _ => none

/-- Whether a cell is the matched-aspect glyph referencing `#orb{deg}`. -/
def cellIsOrbGlyph (deg : ℤ) : GridCell → Bool
  | GridCell.aspectGlyph d _ _ => d == deg
  | _ => false

/-- The inner loop emits no planet-glyph cells. -/
theorem draw_aspect_grid_inner_no_planet_glyph (aspects_list : List GridAspect)
    (a : Planet) :
    ∀ (bs : List Planet) (x y : ℚ),
      (draw_aspect_grid_inner aspects_list a bs x y).filterMap cellPlanetName = [] := by
  intro bs
  induction bs with
  | nil =>
    intro x y
    simp [draw_aspect_grid_inner]
  | cons b rest ih =>
    intro x y
    simp [draw_aspect_grid_inner, cellPlanetName, List.filterMap_append,
      List.filterMap_map, ih]

/-- The planet glyphs of the grid body list the given planets in order. -/
theorem draw_aspect_grid_aux_planet_names (aspects_list : List GridAspect) :
    ∀ (l : List Planet) (x y : ℚ),
      (draw_aspect_grid_aux aspects_list l x y).filterMap cellPlanetName =
        l.map Planet.name := by
  intro l
  induction l with
  | nil =>
    intro x y
    simp [draw_aspect_grid_aux]
  | cons a rest ih =>
    intro x y
    simp [draw_aspect_grid_aux, cellPlanetName, List.filterMap_append,
      draw_aspect_grid_inner_no_planet_glyph, ih]

/-- C6: `draw_aspect_grid` lays out one planet row per active planet, in
reverse of the input order, excluding inactive planets entirely; with planets
`[A(active), B(inactive), C(active)]` and the single aspect `(A, C, 90)` the
output is six cells — rows for `C` then `A`, one orb cell, and exactly one
matched glyph referencing `#orb90` — with no cell for `B`. -/
theorem draw_aspect_grid_reverse_active_rows (stroke_color : String)
    (available_planets_list : List Planet) (aspects_list : List GridAspect) :
    (draw_aspect_grid stroke_color available_planets_list aspects_list).filterMap
        cellPlanetName =
      ((available_planets_list.filter (fun planet => planet.is_active)).reverse).map
        Planet.name ∧
    draw_aspect_grid "#000" [⟨1, "A", true⟩, ⟨2, "B", false⟩, ⟨3, "C", true⟩]
        [⟨1, 3, 90⟩] =
      [GridCell.planetRect 380 468,
       GridCell.planetGlyph "C" 955 (2345/2),
       GridCell.orbRect 394 468,
       GridCell.aspectGlyph 90 395 469,
       GridCell.planetRect 394 454,
       GridCell.planetGlyph "A" 990 (2275/2)] ∧
    ((draw_aspect_grid "#000" [⟨1, "A", true⟩, ⟨2, "B", false⟩, ⟨3, "C", true⟩]
        [⟨1, 3, 90⟩]).countP (cellIsOrbGlyph 90)) = 1 ∧
    (draw_aspect_grid "#000" [⟨1, "A", true⟩, ⟨2, "B", false⟩, ⟨3, "C", true⟩]
        [⟨1, 3, 90⟩]).filterMap cellPlanetName = ["C", "A"] := by
  refine ⟨?_, ?_, ?_, ?_⟩
  · simp [draw_aspect_grid, draw_aspect_grid_aux_planet_names]
  · simp only [draw_aspect_grid, draw_aspect_grid_aux, draw_aspect_grid_inner,
      gridBox, List.filter, List.reverse]
    norm_num
  · simp only [draw_aspect_grid, draw_aspect_grid_aux, draw_aspect_grid_inner,
      gridBox, List.filter, List.reverse]
    norm_num [cellIsOrbGlyph]
  · simp only [draw_aspect_grid, draw_aspect_grid_aux, draw_aspect_grid_inner,
      gridBox, List.filter, List.reverse]
    rfl

/-- The `ChartType` variants the code compares against. -/
inductive ChartType
  | Natal
  | ExternalNatal
  | Synastry
  | Transit
deriving DecidableEq

/-- One markup fragment emitted by `draw_houses_cusps_and_text_number`:
a `kr:node="Cusp"` group holding a house-cusp `line` (stroke color, stroke
opacity, endpoints) or a `kr:node="HouseNumber"` group holding a `text` label
(house number, fill opacity, position). -/
inductive HouseFrag
  | cusp (color : String) (strokeOpacity : ℚ) (x1 y1 x2 y2 : ℝ)
  | houseNumber (num : ℕ) (fillOpacity : ℚ) (x y : ℝ)

/-- The line-color selection of charts_utils.py lines 539-548: fixed colors
for houses 0 (first), 9 (tenth), 6 (seventh), 3 (fourth), the standard house
color otherwise. -/
def house_line_color (i : ℕ) (standard_house_color first_house_color
    tenth_house_color seventh_house_color fourth_house_color : String) : String :=
  if i = 0 then first_house_color
  else if i = 9 then tenth_house_color
  else if i = 6 then seventh_house_color
  else if i = 3 then fourth_house_color
  else standard_house_color

/-- The body of the `for i in range(xr)` loop of
`draw_houses_cusps_and_text_number` (lines 516-610) for house index `i`:
`offset = (int(first_subject_houses_list_ut[6]) / -1) + int(first_subject_houses_list_ut[i])`,
cusp endpoints projected at `r - dropin` / `r - roff` (dropin 160 and roff 72
for Transit/Synastry, else `c3` / `c1`), the label at the angular midpoint to
the next cusp (wrapping 11 to 0), the overlay cusp and label for
Transit/Synastry (rotated by `zeropoint = 360 - first_subject_houses_list_ut[6]`,
normalized once over 360, opacity 0 for Transit and 0.4/0.3 for Synastry),
and finally the primary cusp line (stroke opacity 0.4) and house-number label
(fill opacity 0.6, at dropin 84/100/48 for Transit-Synastry/ExternalNatal/Natal). -/
noncomputable def draw_houses_body (r : ℚ) (first_subject_houses_list_ut : List ℚ)
    (standard_house_color first_house_color tenth_house_color
     seventh_house_color fourth_house_color : String)
    (c1 c3 : ℚ) (chart_type : ChartType)
    (second_subject : List ℚ) (i : ℕ) : List HouseFrag :=
  let dropin : ℚ :=
    if chart_type = ChartType.Transit ∨ chart_type = ChartType.Synastry then 160 else c3
  let roff : ℚ :=
    if chart_type = ChartType.Transit ∨ chart_type = ChartType.Synastry then 72 else c1
  let t_roff : ℚ := 36
  let offset : ℚ :=
    ((pyInt (first_subject_houses_list_ut.getD 6 0) : ℚ) / -1) +
      (pyInt (first_subject_houses_list_ut.getD i 0) : ℚ)
  let x1 := sliceToX 0 ((r : ℝ) - (dropin : ℝ)) ((offset : ℚ) : ℝ) + (dropin : ℝ)
  let y1 := sliceToY 0 ((r : ℝ) - (dropin : ℝ)) ((offset : ℚ) : ℝ) + (dropin : ℝ)
  let x2 := sliceToX 0 ((r : ℝ) - (roff : ℝ)) ((offset : ℚ) : ℝ) + (roff : ℝ)
  let y2 := sliceToY 0 ((r : ℝ) - (roff : ℝ)) ((offset : ℚ) : ℝ) + (roff : ℝ)
  let text_offset : ℚ :=
    if i < 11 then
      offset + (pyInt (degreeDiff (first_subject_houses_list_ut.getD (i + 1) 0)
        (first_subject_houses_list_ut.getD i 0) / 2) : ℚ)
    else
      offset + (pyInt (degreeDiff (first_subject_houses_list_ut.getD 0 0)
        (first_subject_houses_list_ut.getD 11 0) / 2) : ℚ)
  let linecolor := house_line_color i standard_house_color first_house_color
    tenth_house_color seventh_house_color fourth_house_color
  let overlay : List HouseFrag :=
    if chart_type = ChartType.Transit ∨ chart_type = ChartType.Synastry then
      let zeropoint : ℚ := 360 - first_subject_houses_list_ut.getD 6 0
      let t_offset0 : ℚ := zeropoint + second_subject.getD i 0
      let t_offset : ℚ := if t_offset0 > 360 then t_offset0 - 360 else t_offset0
      let t_x1 := sliceToX 0 ((r : ℝ) - (t_roff : ℝ)) ((t_offset : ℚ) : ℝ) + (t_roff : ℝ)
      let t_y1 := sliceToY 0 ((r : ℝ) - (t_roff : ℝ)) ((t_offset : ℚ) : ℝ) + (t_roff : ℝ)
      let t_x2 := sliceToX 0 (r : ℝ) ((t_offset : ℚ) : ℝ)
      let t_y2 := sliceToY 0 (r : ℝ) ((t_offset : ℚ) : ℝ)
      let t_text_offset : ℚ :=
        if i < 11 then
          t_offset + (pyInt (degreeDiff (second_subject.getD (i + 1) 0)
            (second_subject.getD i 0) / 2) : ℚ)
        else
          t_offset + (pyInt (degreeDiff (second_subject.getD 0 0)
            (second_subject.getD 11 0) / 2) : ℚ)
      let t_linecolor :=
        if i = 0 ∨ i = 9 ∨ i = 6 ∨ i = 3 then linecolor else standard_house_color
      let xtext := sliceToX 0 ((r : ℝ) - 8) ((t_text_offset : ℚ) : ℝ) + 8
      let ytext := sliceToY 0 ((r : ℝ) - 8) ((t_text_offset : ℚ) : ℝ) + 8
      if chart_type = ChartType.Transit then
        [HouseFrag.houseNumber (i + 1) 0 (xtext - 3) (ytext + 3),
         HouseFrag.cusp t_linecolor 0 t_x1 t_y1 t_x2 t_y2]
      else
        [HouseFrag.houseNumber (i + 1) (4/10) (xtext - 3) (ytext + 3),
         HouseFrag.cusp t_linecolor (3/10) t_x1 t_y1 t_x2 t_y2]
    else []
  let dropin2 : ℚ :=
    if chart_type = ChartType.Transit ∨ chart_type = ChartType.Synastry then 84
    else if chart_type = ChartType.ExternalNatal then 100
    else 48
  let xtext := sliceToX 0 ((r : ℝ) - (dropin2 : ℝ)) ((text_offset : ℚ) : ℝ) + (dropin2 : ℝ)
  let ytext := sliceToY 0 ((r : ℝ) - (dropin2 : ℝ)) ((text_offset : ℚ) : ℝ) + (dropin2 : ℝ)
  overlay ++
    [HouseFrag.cusp linecolor (4/10) x1 y1 x2 y2,
     HouseFrag.houseNumber (i + 1) (6/10) (xtext - 3) (ytext + 3)]

/-- `draw_houses_cusps_and_text_number` from charts_utils.py lines 496-612:
raises `KerykeionException` when the chart type is Transit or Synastry and no
second cusp list is supplied, otherwise concatenates the per-house fragments
for `i in range(12)` in index order. -/
noncomputable def draw_houses_cusps_and_text_number (r : ℚ)
    (first_subject_houses_list_ut : List ℚ)
    (standard_house_color first_house_color tenth_house_color
     seventh_house_color fourth_house_color : String)
    (c1 c3 : ℚ) (chart_type : ChartType)
    (second_subject_houses_list_ut : Option (List ℚ)) :
    Except String (List HouseFrag) :=
  if (chart_type = ChartType.Transit ∨ chart_type = ChartType.Synastry) ∧
      second_subject_houses_list_ut = none then
    Except.error "second_subject_houses_list is None"
  else
    Except.ok ((List.range 12).flatMap
      (draw_houses_body r first_subject_houses_list_ut standard_house_color
        first_house_color tenth_house_color seventh_house_color
        fourth_house_color c1 c3 chart_type
        (second_subject_houses_list_ut.getD [])))

/-- The stroke color of a cusp-line fragment, if any. -/
def fragCuspColor : HouseFrag → Option String
  | HouseFrag.cusp c _ _ _ _ _ => some c
  | HouseFrag.houseNumber _ _ _ _ => none

/-- The house number of a label fragment, if any. -/
def fragHouseNum : HouseFrag → Option ℕ
  | HouseFrag.cusp _ _ _ _ _ _ => none
  | HouseFrag.houseNumber n _ _ _ => some n

/-- Whether a fragment is a cusp line. -/
def fragIsCusp : HouseFrag → Bool
  | HouseFrag.cusp _ _ _ _ _ _ => true
  | HouseFrag.houseNumber _ _ _ _ => false

/-- For a Natal chart the loop body for house `i` is exactly one cusp line
(stroke opacity 0.4, color per `house_line_color`) followed by one
house-number label (fill opacity 0.6, number `i + 1`). -/
theorem draw_houses_body_natal_parts (r : ℚ) (cusps : List ℚ)
    (std fh th sh foh : String) (c1 c3 : ℚ) (second : List ℚ) (i : ℕ) :
    (draw_houses_body r cusps std fh th sh foh c1 c3 ChartType.Natal second i).filterMap
        fragCuspColor = [house_line_color i std fh th sh foh] ∧
    (draw_houses_body r cusps std fh th sh foh c1 c3 ChartType.Natal second i).filterMap
        fragHouseNum = [i + 1] ∧
    (draw_houses_body r cusps std fh th sh foh c1 c3 ChartType.Natal second i).map
        fragIsCusp = [true, false] := by
  refine ⟨?_, ?_, ?_⟩ <;>
    simp [draw_houses_body, fragCuspColor, fragHouseNum, fragIsCusp]

/-- C7: for a Natal chart `draw_houses_cusps_and_text_number` succeeds and
emits exactly 12 cusp-line fragments and 12 house-number fragments,
concatenated in house-index order 0..11 (per house: cusp line then label),
where houses 0, 3, 6, 9 take the first/fourth/seventh/tenth house colors and
every other house the standard color. -/
theorem draw_houses_natal_twelve (r c1 c3 : ℚ) (cusps : List ℚ)
    (std fh th sh foh : String) (hlen : cusps.length = 12) :
    ∃ frags,
      draw_houses_cusps_and_text_number r cusps std fh th sh foh c1 c3
          ChartType.Natal none = Except.ok frags ∧
      frags.filterMap fragCuspColor =
        (List.range 12).map (fun i => house_line_color i std fh th sh foh) ∧
      frags.filterMap fragHouseNum = (List.range 12).map (fun i => i + 1) ∧
      frags.map fragIsCusp = (List.range 12).flatMap (fun _ => [true, false]) ∧
      (frags.filterMap fragCuspColor).length = 12 ∧
      (frags.filterMap fragHouseNum).length = 12 ∧
      house_line_color 0 std fh th sh foh = fh ∧
      house_line_color 3 std fh th sh foh = foh ∧
      house_line_color 6 std fh th sh foh = sh ∧
      house_line_color 9 std fh th sh foh = th ∧
      (∀ i, i ≠ 0 → i ≠ 3 → i ≠ 6 → i ≠ 9 →
        house_line_color i std fh th sh foh = std) := by
  refine ⟨(List.range 12).flatMap
    (draw_houses_body r cusps std fh th sh foh c1 c3 ChartType.Natal
      ([] : List ℚ)), ?_, ?_, ?_, ?_, ?_, ?_, ?_, ?_, ?_, ?_, ?_⟩
  · simp [draw_houses_cusps_and_text_number]
  · rw [List.filterMap_flatMap]
    have h : ∀ i, (draw_houses_body r cusps std fh th sh foh c1 c3
        ChartType.Natal ([] : List ℚ) i).filterMap fragCuspColor =
        [house_line_color i std fh th sh foh] :=
      fun i => (draw_houses_body_natal_parts r cusps std fh th sh foh c1 c3 _ i).1
    simp only [h]
    exact (List.map_eq_flatMap _ _).symm
  · rw [List.filterMap_flatMap]
    have h : ∀ i, (draw_houses_body r cusps std fh th sh foh c1 c3
        ChartType.Natal ([] : List ℚ) i).filterMap fragHouseNum =
        [i + 1] :=
      fun i => (draw_houses_body_natal_parts r cusps std fh th sh foh c1 c3 _ i).2.1
    simp only [h]
    exact (List.map_eq_flatMap _ _).symm
  · rw [List.map_flatMap]
    have h : ∀ i, (draw_houses_body r cusps std fh th sh foh c1 c3
        ChartType.Natal ([] : List ℚ) i).map fragIsCusp =
        [true, false] :=
      fun i => (draw_houses_body_natal_parts r cusps std fh th sh foh c1 c3 _ i).2.2
    simp only [h]
  · rw [List.filterMap_flatMap]
    have h : ∀ i, (draw_houses_body r cusps std fh th sh foh c1 c3
        ChartType.Natal ([] : List ℚ) i).filterMap fragCuspColor =
        [house_line_color i std fh th sh foh] :=
      fun i => (draw_houses_body_natal_parts r cusps std fh th sh foh c1 c3 _ i).1
    simp [h, Function.comp_def, List.map_const', List.sum_replicate]
  · rw [List.filterMap_flatMap]
    have h : ∀ i, (draw_houses_body r cusps std fh th sh foh c1 c3
        ChartType.Natal ([] : List ℚ) i).filterMap fragHouseNum =
        [i + 1] :=
      fun i => (draw_houses_body_natal_parts r cusps std fh th sh foh c1 c3 _ i).2.1
    simp [h, Function.comp_def, List.map_const', List.sum_replicate]
  · rfl
  · rfl
  · rfl
  · rfl
  · intro i h0 h3 h6 h9
    simp [house_line_color, h0, h3, h6, h9]

/-- C7 witness: a concrete 12-element cusp list (30° houses) with Natal radii
`r = 240`, `c1 = 36`, `c3 = 40` satisfies the hypothesis and yields the
12-cusp, 12-label output. -/
theorem draw_houses_natal_twelve_witness :
    ([0, 30, 60, 90, 120, 150, 180, 210, 240, 270, 300, 330] : List ℚ).length = 12 ∧
    (∃ frags,
      draw_houses_cusps_and_text_number 240
          [0, 30, 60, 90, 120, 150, 180, 210, 240, 270, 300, 330]
          "std" "first" "tenth" "seventh" "fourth" 36 40
          ChartType.Natal none = Except.ok frags ∧
      frags.filterMap fragCuspColor =
        (List.range 12).map
          (fun i => house_line_color i "std" "first" "tenth" "seventh" "fourth") ∧
      frags.filterMap fragHouseNum = (List.range 12).map (fun i => i + 1) ∧
      frags.map fragIsCusp = (List.range 12).flatMap (fun _ => [true, false]) ∧
      (frags.filterMap fragCuspColor).length = 12 ∧
      (frags.filterMap fragHouseNum).length = 12 ∧
      house_line_color 0 "std" "first" "tenth" "seventh" "fourth" = "first" ∧
      house_line_color 3 "std" "first" "tenth" "seventh" "fourth" = "fourth" ∧
      house_line_color 6 "std" "first" "tenth" "seventh" "fourth" = "seventh" ∧
      house_line_color 9 "std" "first" "tenth" "seventh" "fourth" = "tenth" ∧
      (∀ i, i ≠ 0 → i ≠ 3 → i ≠ 6 → i ≠ 9 →
        house_line_color i "std" "first" "tenth" "seventh" "fourth" = "std")) :=
  ⟨rfl,
   draw_houses_natal_twelve 240 36 40
     [0, 30, 60, 90, 120, 150, 180, 210, 240, 270, 300, 330]
     "std" "first" "tenth" "seventh" "fourth" rfl⟩
